import Mathlib

/-!
Shallow embedding of the event-emission admission controller of the
go-opera validator node (package emitter): the consensus-progress metric
helpers (scalarUpdMetric, updMetric, kickStartMetric, eventMetric), the
top-50 whitelist helpers (top50, isInTop50), the admission predicate
isAllowedToEmit, and the idle-time recheck (recheckIdleTime).

Machine integers are modelled as Nat (for the unsigned types uint32,
uint64, the fixed-point Metric and gas amounts) and Int (for int64
nanosecond time.Duration values and timestamps), with explicit `% 2^64`
reductions exactly where Go uint64 arithmetic can wrap, and an explicit
uint64 → int64 reinterpretation where the source converts a Metric
product back to a time.Duration.
-/

/-- Modelled from the spec: piecefunc.DecimalUnit, the fixed-point scale
constant, is defined in the lachesis-base dependency (outside the given
sources); the spec gives the scale as 1_000_000. -/
def DecimalUnit : Nat := 1000000

/-- Modulus of Go uint64 arithmetic. -/
def U64 : Nat := 2 ^ 64

/-- Go uint64 subtraction a - b (wrapping modulo 2^64). -/
def sub64 (a b : Nat) : Nat := (a % U64 + U64 - b % U64) % U64

/-- Reinterpretation of a uint64 value as an int64 (two's complement),
as performed by the Go conversion time.Duration(m) for m : uint64. -/
def toInt64 (n : Nat) : Int :=
  if n % U64 < 2 ^ 63 then ((n % U64 : Nat) : Int)
  else ((n % U64 : Nat) : Int) - (U64 : Int)

/-- Wrapping of an integer into the int64 range (two's complement), as
performed by Go int64 addition when the exact sum overflows. Int.emod
by 2^64 lands in [0, 2^64); values of 2^63 and above represent the
negative int64 values. -/
def wrap64 (n : Int) : Int :=
  let m := Int.emod n (U64 : Int)
  if m < 2 ^ 63 then m else m - (U64 : Int)

/-- Validator set interface used by the emitter: GetWeightByIdx,
TotalWeight and SortedIDs (IDs sorted by stake, descending). Weights
are pos.Weight values and IDs are idx.ValidatorID values, both
modelled as Nat. -/
structure Validators where
  getWeightByIdx : Nat → Nat
  totalWeight : Nat
  sortedIDs : List Nat

/-- scalarUpdMetric, parametrised by the piecewise function.

Modelled from the spec: scalarUpdMetricF is defined in a source file of
this repository that is not among the given sources; the spec treats the
piecewise function as a pure total function, so it is taken here as an
explicit parameter F. The remaining arithmetic mirrors the source:
F (diff * DecimalUnit) * weight / totalWeight in uint64 arithmetic. -/
def scalarUpdMetric (F : Nat → Nat) (diff weight totalWeight : Nat) : Nat :=
  F (diff * DecimalUnit % U64) % U64 * weight % U64 / totalWeight

/-- updMetric: the marginal consensus-advancement metric of an event with
sequence number upd, relative to the median observed sequence number and
the creator's current sequence number. The subtraction in the
median < cur branch is Go uint64 subtraction. -/
def updMetric (F : Nat → Nat) (median cur upd : Nat) (validatorIdx : Nat)
    (validators : Validators) : Nat :=
  if upd ≤ median ∨ upd ≤ cur then 0
  else
    let weight := validators.getWeightByIdx validatorIdx
    if median < cur then
      sub64 (scalarUpdMetric F (upd - median) weight validators.totalWeight)
        (scalarUpdMetric F (cur - median) weight validators.totalWeight)
    else
      scalarUpdMetric F (upd - median) weight validators.totalWeight

/-- kickStartMetric: boosts the metric at the beginning of an epoch
(seq ≤ 2), when there is nothing to observe yet. The guards make the
uint64 additions non-wrapping, so plain Nat addition is exact. -/
def kickStartMetric (metric seq : Nat) : Nat :=
  let metric :=
    if seq ≤ 2 ∧ metric < 9 * DecimalUnit / 10 then metric + DecimalUnit / 10
    else metric
  if seq ≤ 1 ∧ metric ≤ 8 * DecimalUnit / 10 then metric + 2 * DecimalUnit / 10
  else metric

/-- eventMetric, parametrised by the piecewise transform.

Modelled from the spec: eventMetricF is defined in a source file of this
repository that is not among the given sources; the spec treats it as a
pure total piecewise transform, so it is taken here as an explicit
parameter F. eventMetric composes it with the kickstart adjustment. -/
def eventMetric (F : Nat → Nat) (orig seq : Nat) : Nat :=
  kickStartMetric (F orig) seq

/-- top50: the first 50 elements of a slice of validator IDs. -/
def top50 (slice : List Nat) : List Nat :=
  if slice.length > 50 then slice.take 50 else slice

/-- isInTop50: whether a validator ID occurs among the first 50 elements
of a slice. -/
def isInTop50 (number : Nat) (slice : List Nat) : Bool :=
  (top50 slice).contains number

/-- Candidate event fields read by isAllowedToEmit: Creator(),
CreationTime() (nanosecond timestamp), and GasPowerLeft().Min(). -/
structure EventI where
  creator : Nat
  creationTime : Int
  gasPowerLeftMin : Nat

/-- Emitter intervals configuration (time.Duration values). -/
structure EmitIntervals where
  Min : Int
  Max : Int
  Confirming : Int

/-- Emitter configuration fields read by isAllowedToEmit. -/
structure EmitterConfig where
  validatorID : Nat
  EmergencyThreshold : Nat
  NoTxsThreshold : Nat

/-- External world queries used by isAllowedToEmit: GetLatestBlockIndex()
and GetRules().Economy.BlockMissedSlack. -/
structure World where
  latestBlockIndex : Nat
  blockMissedSlack : Nat

/-- The emitter state and collaborators read by isAllowedToEmit and
recheckIdleTime. The field idle models the em.idle() query (no pending
local work). The field emitIntervalOracle stands for the float64-computed
adjustedEmitInterval of the low-power slowdown branch
(time.Duration(maxT - (maxT-minT)*factor)): floating point is not
embedded, and every theorem below holds for all values of this field. -/
structure Emitter where
  config : EmitterConfig
  intervals : EmitIntervals
  world : World
  validators : Validators
  prevEmittedAtTime : Int
  prevIdleTime : Int
  prevEmittedAtBlock : Nat
  stakeRatio : Nat → Nat
  idle : Bool
  emitIntervalOracle : Int

/-- passedTime: elapsed nanoseconds since the previous emission, clamped
to ≥ 0 (Int.toNat is exactly the source's negative-to-zero clamp). -/
def passedTimeOf (em : Emitter) (e : EventI) : Nat :=
  (e.creationTime - em.prevEmittedAtTime).toNat

/-- passedTimeIdle before blending: elapsed nanoseconds since the
previous idle recheck, clamped to ≥ 0. -/
def passedTimeIdleOf (em : Emitter) (e : EventI) : Nat :=
  (e.creationTime - em.prevIdleTime).toNat

/-- The adjusted elapsed time of the source, line for line:
time.Duration(ancestor.Metric(passed/piecefunc.DecimalUnit) * metric).
The elapsed time is integer-divided by DecimalUnit first, the quotient is
multiplied by the metric in uint64 arithmetic, and the product is
reinterpreted as an int64 time.Duration. -/
def adjustedTime (passed metric : Nat) : Int :=
  toInt64 (passed / DecimalUnit * metric)

/-- passedBlocks: the uint64 difference between the latest finalized
block index and the block index at the previous emission. -/
def passedBlocksOf (em : Emitter) : Nat :=
  sub64 em.world.latestBlockIndex em.prevEmittedAtBlock

/-- maxBlocks of the liveness-override block: BlockMissedSlack/2 + 1,
raised to BlockMissedSlack - 5 (uint64 subtraction) when
BlockMissedSlack > maxBlocks and maxBlocks < BlockMissedSlack - 5. -/
def maxBlocksOf (blockMissedSlack : Nat) : Nat :=
  let maxBlocks := blockMissedSlack / 2 + 1
  if blockMissedSlack > maxBlocks ∧ maxBlocks < sub64 blockMissedSlack 5 then
    sub64 blockMissedSlack 5
  else maxBlocks

/-- The stake-tier idle-time blending of isAllowedToEmit: overwrite
passedTimeIdle with passedTime below 0.35·DecimalUnit of stake ratio,
average the two below 0.7·DecimalUnit, then clamp to at most
passedTime. The operands are int64 time.Duration values, so the average
(passedTimeIdle + passedTime) / 2 is the int64-wrapping sum (negative
once the exact sum reaches 2^63) followed by Go's
truncated-toward-zero division Int.tdiv. In the current build the
blended value is bound inside isAllowedToEmit but read by no later
computation: adjustedPassedIdleTime is computed from the pre-blend
idle time. -/
def blendIdleTime (ratio : Nat) (passedTimeIdle passedTime : Int) : Int :=
  let passedTimeIdle :=
    if ratio < 35 * DecimalUnit / 100 then passedTime
    else if ratio < 7 * DecimalUnit / 10 then
      Int.tdiv (wrap64 (passedTimeIdle + passedTime)) 2
    else passedTimeIdle
  if passedTimeIdle > passedTime then passedTime else passedTimeIdle

/-- The gas-power emergency condition of isAllowedToEmit: not enough
power (at most EmergencyThreshold) and power decreasing (a self-parent
exists and the candidate has strictly less gas power left). -/
def emergencyHolds (em : Emitter) (e : EventI) (selfParent : Option EventI) : Prop :=
  e.gasPowerLeftMin ≤ em.config.EmergencyThreshold ∧
    match selfParent with
    | some p => e.gasPowerLeftMin < p.gasPowerLeftMin
    | none => False

instance (em : Emitter) (e : EventI) :
    (selfParent : Option EventI) → Decidable (emergencyHolds em e selfParent)
  | some p =>
      inferInstanceAs (Decidable
        (e.gasPowerLeftMin ≤ em.config.EmergencyThreshold ∧
          e.gasPowerLeftMin < p.gasPowerLeftMin))
  | none =>
      inferInstanceAs (Decidable
        (e.gasPowerLeftMin ≤ em.config.EmergencyThreshold ∧ False))

/-- isAllowedToEmit: the admission predicate, translated branch for
branch from the source. All Duration comparisons coerce the clamped
Nat elapsed times back to Int. The low-power slowdown compares against
the emitIntervalOracle field (see Emitter). -/
def isAllowedToEmit (em : Emitter) (e : EventI) (eTxs : Bool) (metric : Nat)
    (selfParent : Option EventI) : Bool :=
  let passedTime := passedTimeOf em e
  let passedTimeIdle := passedTimeIdleOf em e
  let adjustedPassedTime := adjustedTime passedTime metric
  let adjustedPassedIdleTime := adjustedTime passedTimeIdle metric
  let passedBlocks := passedBlocksOf em
  let supermajority := true
  let supermajority :=
    if e.creator = em.config.validatorID ∧ isInTop50 e.creator em.validators.sortedIDs = false
    then true
    else supermajority
  if supermajority then
    let _passedTimeIdle :=
      blendIdleTime (em.stakeRatio e.creator) (passedTimeIdle : Int) (passedTime : Int)
    -- Forbid emitting if not enough power and power is decreasing
    if emergencyHolds em e selfParent then false
    else
      -- Enforce emitting if passed too many time/blocks since previous event
      let maxBlocks := maxBlocksOf em.world.blockMissedSlack
      if (passedTime : Int) ≥ em.intervals.Max ∨
          (passedBlocks ≥ maxBlocks * 4 % U64 / 5 ∧ metric ≥ DecimalUnit / 2) ∨
          passedBlocks ≥ maxBlocks then
        true
      else
        -- Slow down emitting if power is low
        let threshold := (em.config.NoTxsThreshold + em.config.EmergencyThreshold) / 2
        if e.gasPowerLeftMin ≤ threshold ∧ (passedTime : Int) < em.emitIntervalOracle then
          true
        -- Slow down emitting if no txs to confirm/originate
        else if (passedTime : Int) < em.intervals.Max ∧ em.idle = true ∧ eTxs = false then
          true
        -- Emitting is controlled by the efficiency metric
        else if (passedTime : Int) < em.intervals.Min then
          true
        else if adjustedPassedTime < em.intervals.Min ∧ em.idle = false then
          true
        else if adjustedPassedIdleTime < em.intervals.Confirming ∧ em.idle = false ∧
            eTxs = false then
          true
        else
          -- only allow top validators
          true
  else
    -- Enforce emitting if passed Max time
    if (passedTime : Int) ≥ em.intervals.Max then true
    else false

/-- recheckIdleTime: under the world lock, if the emitter currently has
no pending work, set prevIdleTime to the current time. -/
def recheckIdleTime (em : Emitter) (now : Int) : Emitter :=
  if em.idle then { em with prevIdleTime := now } else em

theorem isAllowedToEmit_eq_not_emergency (em : Emitter) (e : EventI) (eTxs : Bool)
    (metric : Nat) (selfParent : Option EventI) :
    isAllowedToEmit em e eTxs metric selfParent =
      !(decide (emergencyHolds em e selfParent)) := by
  by_cases h : emergencyHolds em e selfParent <;>
    simp [isAllowedToEmit, h, ite_self]

/-- Concrete validator set for the witness evaluations. -/
def validatorsW : Validators :=
  { getWeightByIdx := fun _ => 1, totalWeight := 1, sortedIDs := [1, 2, 3] }

/-- Concrete emitter for the witness evaluations: intervals
Min = 100, Confirming = 150, Max = 200 (ns), BlockMissedSlack = 50,
no blocks passed since the previous emission, idle, mid-tier stake. -/
def emitterW : Emitter :=
  { config := { validatorID := 1, EmergencyThreshold := 10, NoTxsThreshold := 20 }
    intervals := { Min := 100, Max := 200, Confirming := 150 }
    world := { latestBlockIndex := 1000, blockMissedSlack := 50 }
    validators := validatorsW
    prevEmittedAtTime := 0
    prevIdleTime := 0
    prevEmittedAtBlock := 1000
    stakeRatio := fun _ => 500000
    idle := true
    emitIntervalOracle := 0 }

/-- Candidate event far past intervals.Max with the emergency condition
holding (gas 5 ≤ threshold 10, self-parent has more gas). -/
def eventW2 : EventI := { creator := 1, creationTime := 250, gasPowerLeftMin := 5 }

/-- Self-parent of eventW2, with strictly more gas power left. -/
def parentW2 : EventI := { creator := 1, creationTime := 0, gasPowerLeftMin := 7 }

/-- Candidate event below every timing threshold, with plenty of gas. -/
def eventW3 : EventI := { creator := 1, creationTime := 50, gasPowerLeftMin := 1000 }


/-- C1: in the current build (top-50 restriction disabled), isAllowedToEmit
returns false if and only if the gas-power emergency condition holds:
gasPowerLeft.Min() ≤ EmergencyThreshold, a self-parent exists, and the
candidate's gas power is strictly lower than the self-parent's. On every
other input it returns true, so the emergency check is the only branch
that can yield a do-not-emit outcome. -/
theorem C1_false_iff_emergency (em : Emitter) (e : EventI) (eTxs : Bool)
    (metric : Nat) (selfParent : Option EventI) :
    isAllowedToEmit em e eTxs metric selfParent = false ↔
      (e.gasPowerLeftMin ≤ em.config.EmergencyThreshold ∧
        ∃ p, selfParent = some p ∧ e.gasPowerLeftMin < p.gasPowerLeftMin) := by
  rw [isAllowedToEmit_eq_not_emergency]
  cases selfParent <;> simp [emergencyHolds]

/-- C2: whenever passedTime ≥ intervals.Max, isAllowedToEmit returns true
regardless of metric, gas power, passedBlocks or idle flags — except that
the gas-power emergency defer takes precedence and forces false when its
condition holds simultaneously. -/
theorem C2_liveness_vs_emergency (em : Emitter) (e : EventI) (eTxs : Bool)
    (metric : Nat) (selfParent : Option EventI)
    (hmax : (passedTimeOf em e : Int) ≥ em.intervals.Max) :
    isAllowedToEmit em e eTxs metric selfParent =
      if emergencyHolds em e selfParent then false else true := by
  rw [isAllowedToEmit_eq_not_emergency]
  by_cases h : emergencyHolds em e selfParent <;> simp [h]

/-- C2 witness: at a concrete input with passedTime = 250 ≥ Max = 200 and
the emergency condition holding (gas 5 ≤ threshold 10, self-parent gas 7),
the emergency defer overrides the liveness emit and the result is false. -/
theorem C2_witness :
    (passedTimeOf emitterW eventW2 : Int) ≥ emitterW.intervals.Max ∧
      isAllowedToEmit emitterW eventW2 true 500000 (some parentW2) = false := by
  refine ⟨by decide, ?_⟩
  rw [C2_liveness_vs_emergency emitterW eventW2 true 500000 (some parentW2) (by decide)]
  decide

/-- C3 counterexample: a concrete input on which every hypothesis of the
claim holds (no emergency, liveness override does not fire, passedTime
below intervals.Min, Min ≤ Confirming ≤ Max) and yet isAllowedToEmit
returns true, refuting the claimed defer (false). -/
theorem C3_counterexample :
    ¬ emergencyHolds emitterW eventW3 none ∧
    (passedTimeOf emitterW eventW3 : Int) < emitterW.intervals.Max ∧
    5 * passedBlocksOf emitterW < 4 * maxBlocksOf emitterW.world.blockMissedSlack ∧
    (passedTimeOf emitterW eventW3 : Int) < emitterW.intervals.Min ∧
    emitterW.intervals.Min ≤ emitterW.intervals.Confirming ∧
    emitterW.intervals.Confirming ≤ emitterW.intervals.Max ∧
    isAllowedToEmit emitterW eventW3 false 0 none = true := by
  decide

/-- C3 amended: under the hypotheses of the claim (no emergency, liveness
override not firing, passedTime < intervals.Min, ordered intervals) the
current build returns true (emit), not false: the efficiency-throttle
branches of isAllowedToEmit return true, and only the emergency condition
can defer. -/
theorem C3_amended_throttle_emits (em : Emitter) (e : EventI) (eTxs : Bool)
    (metric : Nat) (selfParent : Option EventI)
    (hne : ¬ emergencyHolds em e selfParent)
    (hmax : (passedTimeOf em e : Int) < em.intervals.Max)
    (hblocks : 5 * passedBlocksOf em < 4 * maxBlocksOf em.world.blockMissedSlack)
    (hmin : (passedTimeOf em e : Int) < em.intervals.Min)
    (hic : em.intervals.Min ≤ em.intervals.Confirming)
    (hcm : em.intervals.Confirming ≤ em.intervals.Max) :
    isAllowedToEmit em e eTxs metric selfParent = true := by
  rw [isAllowedToEmit_eq_not_emergency]
  simp [hne]

/-- C3 amended witness: the amended theorem applied at the concrete
deferred-by-the-spec input, where the code emits. -/
theorem C3_amended_witness : isAllowedToEmit emitterW eventW3 false 0 none = true :=
  C3_amended_throttle_emits emitterW eventW3 false 0 none (by decide) (by decide)
    (by decide) (by decide) (by decide) (by decide)

/-- C4: updMetric returns exactly 0 whenever the candidate sequence
number does not exceed the median or the creator's current sequence
number, for every piecewise function, validator index and validator
set. -/
theorem C4_updMetric_zero (F : Nat → Nat) (median cur upd validatorIdx : Nat)
    (validators : Validators) (h : upd ≤ median ∨ upd ≤ cur) :
    updMetric F median cur upd validatorIdx validators = 0 := by
  unfold updMetric
  simp [h]

/-- C4 witness: updMetric at a concrete input with candidate ≤ median. -/
theorem C4_witness : updMetric (fun n => n) 5 3 4 0 validatorsW = 0 :=
  C4_updMetric_zero (fun n => n) 5 3 4 0 validatorsW (Or.inl (by decide))

/-- C5 counterexample: in the averaging tier (stake ratio 500000, which
lies in [0.35, 0.7)·DecimalUnit), two valid int64 Durations of
5·10^18 ns each sum past 2^63, so the source's int64 average wraps to a
negative value, while the claim's formula, (passedTimeIdle +
passedTime)/2 then clamped to min with passedTime, would give
5·10^18. -/
theorem C5_counterexample :
    35 * DecimalUnit / 100 ≤ 500000 ∧ (500000 : Nat) < 7 * DecimalUnit / 10 ∧
      blendIdleTime 500000 5000000000000000000 5000000000000000000 =
        -4223372036854775808 ∧
      blendIdleTime 500000 5000000000000000000 5000000000000000000 ≠
        min ((5000000000000000000 + 5000000000000000000 : Int) / 2)
          5000000000000000000 := by
  decide

/-- C5 amended: the blended idle time computed in isAllowedToEmit is
determined from the creator's cached stake ratio as follows: below
0.35·DecimalUnit it is overwritten with passedTime; from 0.35·DecimalUnit
inclusive up to 0.7·DecimalUnit exclusive it becomes the int64-wrapping
average of the two (negative once the exact sum reaches 2^63); from
0.7·DecimalUnit inclusive it is left unmodified; and in every branch it
is finally clamped to at most passedTime. The inclusive bounds show that
a ratio exactly at 0.35·DecimalUnit takes the averaging branch and
exactly at 0.7·DecimalUnit takes the unmodified branch. The blended
value is, however, not read downstream in the current build: the result
of isAllowedToEmit is invariant under arbitrary changes of the
stakeRatio cache, the blending's only input that no other branch
reads. -/
theorem C5_amended_blend (ratio : Nat) (passedTimeIdle passedTime : Int)
    (em : Emitter) (sr1 sr2 : Nat → Nat) (e : EventI) (eTxs : Bool) (metric : Nat)
    (selfParent : Option EventI) :
    (ratio < 35 * DecimalUnit / 100 →
      blendIdleTime ratio passedTimeIdle passedTime = passedTime) ∧
    (35 * DecimalUnit / 100 ≤ ratio → ratio < 7 * DecimalUnit / 10 →
      blendIdleTime ratio passedTimeIdle passedTime =
        min (Int.tdiv (wrap64 (passedTimeIdle + passedTime)) 2) passedTime) ∧
    (7 * DecimalUnit / 10 ≤ ratio →
      blendIdleTime ratio passedTimeIdle passedTime =
        min passedTimeIdle passedTime) ∧
    isAllowedToEmit { em with stakeRatio := sr1 } e eTxs metric selfParent =
      isAllowedToEmit { em with stakeRatio := sr2 } e eTxs metric selfParent := by
  refine ⟨fun h1 => ?_, fun h2a h2b => ?_, fun h3 => ?_, ?_⟩
  · simp only [blendIdleTime, if_pos h1, ite_self]
  · have h1 : ¬ ratio < 35 * DecimalUnit / 100 := by omega
    simp only [blendIdleTime, if_neg h1, if_pos h2b]
    split <;> omega
  · have h1 : ¬ ratio < 35 * DecimalUnit / 100 := by
      have hle : (35 : Nat) * DecimalUnit / 100 ≤ 7 * DecimalUnit / 10 := by decide
      omega
    have h2 : ¬ ratio < 7 * DecimalUnit / 10 := by omega
    simp only [blendIdleTime, if_neg h1, if_neg h2]
    split <;> omega
  · rw [isAllowedToEmit_eq_not_emergency, isAllowedToEmit_eq_not_emergency]
    rfl

/-- C5 amended witness: the boundary ratios land in the documented
branches (exactly 0.35·DecimalUnit averages, exactly 0.7·DecimalUnit
leaves the idle time unmodified up to the final clamp), and a concrete
pair of emitters differing only in the stakeRatio cache yields the same
admission result. -/
theorem C5_amended_witness :
    blendIdleTime (35 * DecimalUnit / 100) 0 10 =
        min (Int.tdiv (wrap64 (0 + 10)) 2) 10 ∧
      blendIdleTime (7 * DecimalUnit / 10) 0 10 = min (0 : Int) 10 ∧
      isAllowedToEmit { emitterW with stakeRatio := fun _ => 0 } eventW3 false 0 none =
        isAllowedToEmit { emitterW with stakeRatio := fun _ => 999999 } eventW3
          false 0 none := by
  have h1 := C5_amended_blend (35 * DecimalUnit / 100) 0 10 emitterW (fun _ => 0)
    (fun _ => 999999) eventW3 false 0 none
  have h2 := C5_amended_blend (7 * DecimalUnit / 10) 0 10 emitterW (fun _ => 0)
    (fun _ => 999999) eventW3 false 0 none
  exact ⟨h1.2.1 (le_refl _) (by decide), h2.2.2.1 (le_refl _), h1.2.2.2⟩

/-- The adjusted elapsed time as the claim words it: the exact integer
product of the raw elapsed time and the metric, scaled once by
DecimalUnit. This definition follows the words of the spec, for
comparison with adjustedTime, the definition taken from the source. -/
def adjustedTimeSpec (passed metric : Nat) : Int :=
  ((passed * metric / DecimalUnit : Nat) : Int)

/-- C6 counterexample: at passedTime = 999999 ns and metric =
DecimalUnit, the source computes (999999 / DecimalUnit) * metric = 0,
while the claimed formula passedTime * metric / DecimalUnit gives
999999: the division happens before the multiplication, not after. -/
theorem C6_counterexample :
    adjustedTime 999999 1000000 = 0 ∧
      adjustedTimeSpec 999999 1000000 = 999999 ∧
      adjustedTime 999999 1000000 ≠ adjustedTimeSpec 999999 1000000 := by
  decide

/-- C6 amended: the adjusted elapsed times of isAllowedToEmit equal the
raw elapsed time first integer-divided by DecimalUnit and then multiplied
by the metric ((passedTime / DecimalUnit) * metric, division first),
whenever that product is below 2^63 so that no uint64 wrap or int64
reinterpretation interferes. -/
theorem C6_amended_div_first (passed metric : Nat)
    (h : passed / DecimalUnit * metric < 2 ^ 63) :
    adjustedTime passed metric = ((passed / DecimalUnit * metric : Nat) : Int) := by
  unfold adjustedTime toInt64
  have h64 : passed / DecimalUnit * metric < U64 := by
    have : (2 : Nat) ^ 63 < 2 ^ 64 := by norm_num
    unfold U64
    omega
  rw [Nat.mod_eq_of_lt h64]
  rw [if_pos h]

/-- C6 amended witness: the amended formula evaluated at passedTime =
2000000 ns and metric = 3. -/
theorem C6_amended_witness :
    adjustedTime 2000000 3 = ((2000000 / DecimalUnit * 3 : Nat) : Int) :=
  C6_amended_div_first 2000000 3 (by decide)

/-- Replace only the SortedIDs sequence of the emitter's validator set,
leaving every other input identical. -/
def withSortedIDs (em : Emitter) (ids : List Nat) : Emitter :=
  { em with validators := { em.validators with sortedIDs := ids } }

/-- C7: the result of isAllowedToEmit does not depend on the top-50
whitelist test: two invocations identical except for the validator set's
SortedIDs (hence except for the value of isInTop50(creator, SortedIDs))
return the same boolean — the computed restriction is forced back to
pass, and the non-top-50 path is never taken. -/
theorem C7_top50_independent (em : Emitter) (ids1 ids2 : List Nat) (e : EventI)
    (eTxs : Bool) (metric : Nat) (selfParent : Option EventI) :
    isAllowedToEmit (withSortedIDs em ids1) e eTxs metric selfParent =
      isAllowedToEmit (withSortedIDs em ids2) e eTxs metric selfParent := by
  rw [isAllowedToEmit_eq_not_emergency, isAllowedToEmit_eq_not_emergency]
  rfl

/-- C8: for every sequence number seq > 2 the kickstart adjustment is the
identity, so eventMetric(raw, seq) is the piecewise transform of raw
alone. -/
theorem C8_eventMetric_seq_gt_two (F : Nat → Nat) (raw seq : Nat) (h : 2 < seq) :
    eventMetric F raw seq = F raw ∧ ∀ m, kickStartMetric m seq = m := by
  have hk : ∀ m, kickStartMetric m seq = m := by
    intro m
    unfold kickStartMetric
    have h2 : ¬ seq ≤ 2 := by omega
    have h1 : ¬ seq ≤ 1 := by omega
    simp [h1, h2]
  exact ⟨hk (F raw), hk⟩

/-- C8 witness: eventMetric with a concrete transform at seq = 3 returns
the transform of the raw value, and kickStartMetric fixes 42 at seq = 3. -/
theorem C8_witness : eventMetric (fun n => n + 7) 5 3 = 12 ∧ kickStartMetric 42 3 = 42 := by
  have h := C8_eventMetric_seq_gt_two (fun n => n + 7) 5 3 (by decide)
  exact ⟨h.1, h.2 42⟩

/-- C9: recheckIdleTime mutates only the idle-tracking field: when the
emitter is idle it sets prevIdleTime to the current time and otherwise
leaves it unchanged, and in both cases prevEmittedAtTime,
prevEmittedAtBlock and stakeRatio are untouched. -/
theorem C9_recheckIdleTime_frame (em : Emitter) (now : Int) :
    (recheckIdleTime em now).prevIdleTime =
        (if em.idle then now else em.prevIdleTime) ∧
      (recheckIdleTime em now).prevEmittedAtTime = em.prevEmittedAtTime ∧
      (recheckIdleTime em now).prevEmittedAtBlock = em.prevEmittedAtBlock ∧
      (recheckIdleTime em now).stakeRatio = em.stakeRatio := by
  unfold recheckIdleTime
  by_cases h : em.idle <;> simp [h]

/-- C10: for every metric at most DecimalUnit, the kickstart boost never
decreases the metric and never pushes it above DecimalUnit: the second
boost is gated on the already-boosted value being at most
0.8·DecimalUnit. -/
theorem C10_kickStart_bounds (metric seq : Nat) (h : metric ≤ DecimalUnit) :
    metric ≤ kickStartMetric metric seq ∧ kickStartMetric metric seq ≤ DecimalUnit := by
  unfold kickStartMetric
  have hD : DecimalUnit = 1000000 := rfl
  rw [hD] at h ⊢
  norm_num
  split <;> split <;> omega

/-- C10 witness: the bounds at metric = 500000, seq = 1 (both boosts
in play). -/
theorem C10_witness :
    500000 ≤ kickStartMetric 500000 1 ∧ kickStartMetric 500000 1 ≤ DecimalUnit :=
  C10_kickStart_bounds 500000 1 (by decide)
